import Mathlib

/-!
Verification of `src/skills/default/current-time-from-script/scripts/current_time.py`.

The program is:

  def main() -> None:
      now = datetime.now().astimezone()            -- line 7
      print(now.strftime("%Y-%m-%d %H:%M:%S %Z (%z)"))  -- line 8

We shallowly embed the value produced by line 7 as a `LocalTimestamp`
(the fields a CPython `datetime` carries, plus the attached timezone's
display name and UTC offset), the `strftime` call of line 8 as pure
formatting functions on lists of characters, and the process behaviour
(stdout/stderr writes, exit code, fault propagation) as a function from
an `Invocation` to an `Outcome`.
-/

/-- Decimal digit to its character, mirroring the digit rendering of C's
`%d` conversions used by `strftime`; only ever applied to values `< 10`. -/
def digitChar : Nat → Char
  | 0 => '0'
  | 1 => '1'
  | 2 => '2'
  | 3 => '3'
  | 4 => '4'
  | 5 => '5'
  | 6 => '6'
  | 7 => '7'
  | 8 => '8'
  | _ => '9'

/-- Numeric value of a decimal digit character (inverse of `digitChar`). -/
def digitVal (c : Char) : Nat := c.toNat - 48

/-- Zero-padded two-digit decimal rendering: `%02d` of `strftime` for the
month, day, hour, minute, second and offset fields, all of which are
below 100 for any value a CPython `datetime` can carry. -/
def fmt2 (n : Nat) : List Char := [digitChar (n / 10), digitChar (n % 10)]

/-- Zero-padded four-digit decimal rendering: the `%Y` field for years up
to 9999 (CPython datetimes satisfy `MINYEAR = 1 ≤ year ≤ MAXYEAR = 9999`). -/
def fmt4 (n : Nat) : List Char :=
  [digitChar (n / 1000), digitChar (n / 100 % 10), digitChar (n / 10 % 10), digitChar (n % 10)]

/-- The value produced by `datetime.now().astimezone()` (line 7): the
datetime fields plus the attached local timezone's display name (`%Z`)
and its UTC offset in minutes (`%z`; current system zones carry
whole-minute offsets). -/
structure LocalTimestamp where
  year : Nat
  month : Nat
  day : Nat
  hour : Nat
  minute : Nat
  second : Nat
  microsecond : Nat
  tzName : String
  offMinutes : Int

/-- The invariants of a value `datetime.now().astimezone()` can yield:
CPython enforces `1 ≤ year ≤ 9999`, `1 ≤ month ≤ 12`, `1 ≤ day ≤ 31`,
`hour < 24`, `minute < 60`, `second < 60`, `microsecond < 10^6` on every
datetime, and a `tzinfo.utcoffset` strictly between -24h and +24h; the
display name attached by `astimezone()` is, per the platform timezone
database, an abbreviation such as `PDT`, an offset label such as
`UTC+09:00`, or empty — in all cases free of whitespace. -/
def ValidReading (ts : LocalTimestamp) : Prop :=
  1 ≤ ts.year ∧ ts.year ≤ 9999 ∧
  1 ≤ ts.month ∧ ts.month ≤ 12 ∧
  1 ≤ ts.day ∧ ts.day ≤ 31 ∧
  ts.hour ≤ 23 ∧ ts.minute ≤ 59 ∧ ts.second ≤ 59 ∧
  ts.microsecond ≤ 999999 ∧
  -1439 ≤ ts.offMinutes ∧ ts.offMinutes ≤ 1439 ∧
  ∀ c ∈ ts.tzName.data, c.isWhitespace = false

/-- The `%z` field: sign taken from the offset, then zero-padded hours
and minutes of its absolute value, exactly as CPython renders a
whole-minute `utcoffset`. -/
def offsetChars (m : Int) : List Char :=
  (if m < 0 then '-' else '+') :: (fmt2 (m.natAbs / 60) ++ fmt2 (m.natAbs % 60))

/-- The `%Y-%m-%d %H:%M:%S` portion of the format string of line 8. -/
def dateTimeChars (ts : LocalTimestamp) : List Char :=
  fmt4 ts.year ++ ['-'] ++ fmt2 ts.month ++ ['-'] ++ fmt2 ts.day ++ [' '] ++
    fmt2 ts.hour ++ [':'] ++ fmt2 ts.minute ++ [':'] ++ fmt2 ts.second

/-- The full result of `now.strftime("%Y-%m-%d %H:%M:%S %Z (%z)")` (line 8). -/
def lineChars (ts : LocalTimestamp) : List Char :=
  dateTimeChars ts ++ [' '] ++ ts.tzName.data ++ [' ', '('] ++
    offsetChars ts.offMinutes ++ [')']

/-- What `print` writes to stdout on line 8: the formatted string
followed by the terminating newline. -/
def printedLine (ts : LocalTimestamp) : List Char := lineChars ts ++ ['\n']

/-- The stdout payload as a string. -/
def outputLine (ts : LocalTimestamp) : String := String.mk (printedLine ts)

/-- Matcher for the closing group of the spec's output pattern: exactly
an opening parenthesis, a sign, four digits, a closing parenthesis and a
final newline. -/
def matchParen : List Char → Bool
  | [p, s, a, b, c, d, q, n] =>
      (p == '(') && (s == '+' || s == '-') && a.isDigit && b.isDigit &&
        c.isDigit && d.isDigit && (q == ')') && (n == '\n')
  | _ => false

/-- Matcher for the suffix after the literal space that follows the
seconds: a run of non-whitespace characters (the regex fragment matching
the timezone name), a space, then the parenthesised offset group. -/
def matchTail : List Char → Bool
  | [] => false
  | c :: rest =>
      if c = ' ' then matchParen rest
      else !c.isWhitespace && matchTail rest

/-- Decision procedure for the spec's output regular expression, written
from the spec's own words: four digits, a dash, two digits, a dash, two
digits, a space, two digits, a colon, two digits, a colon, two digits, a
space, then a run of non-whitespace, a space, and the parenthesised
signed four-digit offset, ending in a newline. -/
def matchesPattern : List Char → Bool
  | a1 :: a2 :: a3 :: a4 :: b1 :: a5 :: a6 :: b2 :: a7 :: a8 :: b3 ::
      a9 :: a10 :: b4 :: a11 :: a12 :: b5 :: a13 :: a14 :: b6 :: rest =>
      a1.isDigit && a2.isDigit && a3.isDigit && a4.isDigit && (b1 == '-') &&
        a5.isDigit && a6.isDigit && (b2 == '-') && a7.isDigit && a8.isDigit &&
        (b3 == ' ') && a9.isDigit && a10.isDigit && (b4 == ':') &&
        a11.isDigit && a12.isDigit && (b5 == ':') && a13.isDigit && a14.isDigit &&
        (b6 == ' ') && matchTail rest
  | _ => false

/-- Parser inverting the date/time portion of the format: reads
`YYYY-MM-DD HH:MM:SS` off the front of the line and returns the six
numeric fields, or `none` if the shape is wrong. -/
def parseStamp : List Char → Option (Nat × Nat × Nat × Nat × Nat × Nat)
  | a1 :: a2 :: a3 :: a4 :: b1 :: a5 :: a6 :: b2 :: a7 :: a8 :: b3 ::
      a9 :: a10 :: b4 :: a11 :: a12 :: b5 :: a13 :: a14 :: _ =>
      if a1.isDigit && a2.isDigit && a3.isDigit && a4.isDigit && (b1 == '-') &&
          a5.isDigit && a6.isDigit && (b2 == '-') && a7.isDigit && a8.isDigit &&
          (b3 == ' ') && a9.isDigit && a10.isDigit && (b4 == ':') &&
          a11.isDigit && a12.isDigit && (b5 == ':') && a13.isDigit && a14.isDigit
      then some (digitVal a1 * 1000 + digitVal a2 * 100 + digitVal a3 * 10 + digitVal a4,
                 digitVal a5 * 10 + digitVal a6,
                 digitVal a7 * 10 + digitVal a8,
                 digitVal a9 * 10 + digitVal a10,
                 digitVal a11 * 10 + digitVal a12,
                 digitVal a13 * 10 + digitVal a14)
      else none
  | _ => none

/-- Parser inverting the `±HHMM` offset field back to minutes. -/
def parseOffset : List Char → Option Int
  | [s, a, b, c, d] =>
      if (s == '+' || s == '-') && a.isDigit && b.isDigit && c.isDigit && d.isDigit then
        some (if s == '-'
          then -((((digitVal a * 10 + digitVal b) * 60 + (digitVal c * 10 + digitVal d) : Nat) : Int))
          else (((digitVal a * 10 + digitVal b) * 60 + (digitVal c * 10 + digitVal d) : Nat) : Int))
      else none
  | _ => none

/-- Reads an all-digit character list as a decimal number. -/
def decDigits (cs : List Char) : Option Nat :=
  if cs.all (fun c => c.isDigit) then
    some (cs.foldl (fun acc c => acc * 10 + digitVal c) 0)
  else none

/-- Day number of a civil date, counted from 0000-03-01 (the standard
days-from-civil computation restricted to years `1..9999`, where it
stays in natural numbers). -/
def civilDays (y m d : Nat) : Nat :=
  let ys := if m ≤ 2 then y - 1 else y
  let era := ys / 400
  let yoe := ys % 400
  let mp := if m ≤ 2 then m + 9 else m - 3
  let doy := (153 * mp + 2) / 5 + d - 1
  let doe := yoe * 365 + yoe / 4 - yoe / 100 + doy
  era * 146097 + doe

/-- The instant of a reading, truncated to whole seconds, as a second
count on the civil timeline. -/
def localSeconds (ts : LocalTimestamp) : Nat :=
  civilDays ts.year ts.month ts.day * 86400 +
    ts.hour * 3600 + ts.minute * 60 + ts.second

/-- The exact instant of a reading in microseconds (what the clock
reading carries before formatting truncates it). -/
def localMicros (ts : LocalTimestamp) : Nat :=
  localSeconds ts * 1000000 + ts.microsecond

/-- The timestamp recovered from a printed line: the date/time portion
parsed back and re-encoded as a second count. -/
def parsedLocalSeconds (cs : List Char) : Option Nat :=
  (parseStamp cs).map (fun t =>
    civilDays t.1 t.2.1 t.2.2.1 * 86400 +
      t.2.2.2.1 * 3600 + t.2.2.2.2.1 * 60 + t.2.2.2.2.2)

/-- An observable I/O action of the process. -/
inductive Effect where
  | wrOut : String → Effect
  | wrErr : String → Effect
deriving DecidableEq

/-- A fault raised by the platform clock/timezone subsystem during
line 7; the script installs no handler for it. -/
inductive Fault where
  | osError : String → Fault
deriving DecidableEq

/-- The diagnostic the Python runtime prints on stderr when an exception
escapes `main`. -/
def faultDiagnostic : Fault → String
  | .osError msg => "Traceback (most recent call last):\n" ++ msg ++ "\n"

/-- One invocation of the process: the argument vector, environment and
file system it was started with, and the result of the platform
clock/timezone read performed by line 7. -/
structure Invocation where
  argv : List String
  env : List (String × String)
  fileSystem : List (String × String)
  clockResult : Except Fault LocalTimestamp

/-- The body of `main` (lines 6-8): the clock read either faults — and
the script, containing no try/except, propagates the fault unchanged —
or yields a reading that is formatted and printed to stdout. -/
def mainBody : Except Fault LocalTimestamp → Except Fault (List Effect)
  | .error f => .error f
  | .ok now => .ok [Effect.wrOut (outputLine now)]

/-- The observable outcome of a process run. -/
structure Outcome where
  events : List Effect
  exitCode : Nat
deriving DecidableEq

/-- The whole process (lines 11-12 plus the Python runtime): `main`
returning normally exits with status 0; an exception escaping `main`
makes the runtime print a diagnostic on stderr and exit with status 1. -/
def runProgram (inv : Invocation) : Outcome :=
  match mainBody inv.clockResult with
  | .ok evs => { events := evs, exitCode := 0 }
  | .error f => { events := [Effect.wrErr (faultDiagnostic f)], exitCode := 1 }

/-- Everything written to stderr over a list of effects. -/
def stderrOf : List Effect → String
  | [] => ""
  | Effect.wrOut _ :: rest => stderrOf rest
  | Effect.wrErr s :: rest => s ++ stderrOf rest

/-- A concrete reading used to instantiate the theorems. -/
def sampleTs : LocalTimestamp :=
  ⟨2024, 3, 15, 14, 7, 42, 123456, "PDT", -420⟩

/-- A later reading in the same second, for the monotonicity and
truncation claims. -/
def sampleTs2 : LocalTimestamp :=
  ⟨2024, 3, 15, 14, 7, 42, 999999, "PDT", -420⟩

/-- A reading whose timezone display name is empty. -/
def sampleEmptyTz : LocalTimestamp :=
  ⟨2024, 3, 15, 14, 7, 42, 0, "", 540⟩

/-- An invocation whose clock read succeeds. -/
def sampleInv : Invocation := ⟨[], [], [], Except.ok sampleTs⟩

/-- A platform fault. -/
def sampleFault : Fault := Fault.osError "OSError: tz database unavailable"

/-- An invocation whose clock read faults. -/
def sampleErrInv : Invocation := ⟨[], [], [], Except.error sampleFault⟩

-- ## Basic digit lemmas

lemma digitChar_isDigit : ∀ n : Nat, (digitChar n).isDigit = true
  | 0 => by decide
  | 1 => by decide
  | 2 => by decide
  | 3 => by decide
  | 4 => by decide
  | 5 => by decide
  | 6 => by decide
  | 7 => by decide
  | 8 => by decide
  | n + 9 => rfl

lemma digitVal_digitChar (n : Nat) (h : n < 10) : digitVal (digitChar n) = n := by
  interval_cases n <;> decide

lemma two_digit_val (n : Nat) (h : n < 100) :
    digitVal (digitChar (n / 10)) * 10 + digitVal (digitChar (n % 10)) = n := by
  rw [digitVal_digitChar _ (by omega), digitVal_digitChar _ (by omega)]
  omega

lemma four_digit_val (n : Nat) (h : n < 10000) :
    digitVal (digitChar (n / 1000)) * 1000 + digitVal (digitChar (n / 100 % 10)) * 100 +
      digitVal (digitChar (n / 10 % 10)) * 10 + digitVal (digitChar (n % 10)) = n := by
  rw [digitVal_digitChar _ (by omega), digitVal_digitChar _ (by omega),
    digitVal_digitChar _ (by omega), digitVal_digitChar _ (by omega)]
  omega

-- ## The printed line matches the spec's regular expression

lemma matchTail_closing (tz : List Char) (htz : ∀ c ∈ tz, c.isWhitespace = false)
    (s a b c d : Char)
    (hs : (s == '+' || s == '-') = true)
    (ha : a.isDigit = true) (hb : b.isDigit = true)
    (hc : c.isDigit = true) (hd : d.isDigit = true) :
    matchTail (tz ++ ' ' :: '(' :: s :: a :: b :: c :: d :: ')' :: '\n' :: []) = true := by
  induction tz with
  | nil =>
      simp [matchTail, matchParen, hs, ha, hb, hc, hd]
  | cons x xs ih =>
      have hx : x.isWhitespace = false := htz x (List.mem_cons_self x xs)
      have hxne : ¬ x = ' ' := by
        intro e
        subst e
        exact absurd hx (by decide)
      have ih2 := ih (fun y hy => htz y (List.mem_cons_of_mem x hy))
      simp [matchTail, hxne, hx, ih2]

lemma sign_char_ok (m : Int) :
    (((if m < 0 then '-' else '+') == '+') || ((if m < 0 then '-' else '+') == '-')) = true := by
  by_cases hm : m < 0 <;> simp [hm]

lemma matchesPattern_valid (ts : LocalTimestamp) (h : ValidReading ts) :
    matchesPattern (printedLine ts) = true := by
  obtain ⟨hy1, hy2, hmo1, hmo2, hd1, hd2, hh, hmi, hse, hus, ho1, ho2, hname⟩ := h
  have tail := matchTail_closing ts.tzName.data hname
    (if ts.offMinutes < 0 then '-' else '+')
    (digitChar (ts.offMinutes.natAbs / 60 / 10))
    (digitChar (ts.offMinutes.natAbs / 60 % 10))
    (digitChar (ts.offMinutes.natAbs % 60 / 10))
    (digitChar (ts.offMinutes.natAbs % 60 % 10))
    (sign_char_ok ts.offMinutes)
    (digitChar_isDigit _) (digitChar_isDigit _) (digitChar_isDigit _) (digitChar_isDigit _)
  simp [printedLine, lineChars, dateTimeChars, fmt2, fmt4, offsetChars,
    matchesPattern, digitChar_isDigit, tail]

-- ## Parsing the printed line back

lemma parseStamp_printedLine (ts : LocalTimestamp) (h : ValidReading ts) :
    parseStamp (printedLine ts) =
      some (ts.year, ts.month, ts.day, ts.hour, ts.minute, ts.second) := by
  obtain ⟨hy1, hy2, hmo1, hmo2, hd1, hd2, hh, hmi, hse, hus, ho1, ho2, hname⟩ := h
  simp [printedLine, lineChars, dateTimeChars, fmt2, fmt4, parseStamp, digitChar_isDigit]
  refine ⟨?_, ?_, ?_, ?_, ?_, ?_⟩
  · exact four_digit_val ts.year (by omega)
  · exact two_digit_val ts.month (by omega)
  · exact two_digit_val ts.day (by omega)
  · exact two_digit_val ts.hour (by omega)
  · exact two_digit_val ts.minute (by omega)
  · exact two_digit_val ts.second (by omega)

lemma parseOffset_offsetChars (m : Int) (h1 : -1439 ≤ m) (h2 : m ≤ 1439) :
    parseOffset (offsetChars m) = some m := by
  have habs : m.natAbs ≤ 1439 := by omega
  have hv1 := two_digit_val (m.natAbs / 60) (by omega)
  have hv2 := two_digit_val (m.natAbs % 60) (by omega)
  by_cases hm : m < 0
  · simp [offsetChars, fmt2, parseOffset, hm, digitChar_isDigit]
    omega
  · simp [offsetChars, fmt2, parseOffset, hm, digitChar_isDigit]
    omega

lemma decDigits_fmt2 (n : Nat) (h : n < 100) : decDigits (fmt2 n) = some n := by
  simp [decDigits, fmt2, digitChar_isDigit]
  have := two_digit_val n h
  omega

lemma decDigits_fmt4 (n : Nat) (h : n < 10000) : decDigits (fmt4 n) = some n := by
  simp [decDigits, fmt4, digitChar_isDigit]
  have := four_digit_val n h
  omega

instance (ts : LocalTimestamp) : Decidable (ValidReading ts) := by
  unfold ValidReading
  infer_instance

-- ## Claim theorems

/-- C1: for every datetime value (year, month, day, hour, minute, second,
timezone name, UTC offset) that `datetime.now().astimezone()` can yield,
the single line the program writes to standard output — the
`strftime("%Y-%m-%d %H:%M:%S %Z (%z)")` rendering followed by a newline —
matches the spec's regular expression
`^\d{4}-\d{2}-\d{2} \d{2}:\d{2}:\d{2} \S* \([+-]\d{4}\)\n$`. -/
theorem c1_output_matches_regex (ts : LocalTimestamp) (h : ValidReading ts) :
    matchesPattern (printedLine ts) = true :=
  matchesPattern_valid ts h

theorem c1_witness :
    ValidReading sampleTs ∧ matchesPattern (printedLine sampleTs) = true :=
  ⟨by decide, c1_output_matches_regex sampleTs (by decide)⟩

/-- C2: the parenthesised field of the output is the signed four-digit
`±HHMM` rendering of the UTC offset attached by `astimezone()` — parsing
it back recovers exactly the host's offset in minutes — and the year is
rendered as four zero-padded digits and month, day, hour, minute and
second as two zero-padded digits each, on a 24-hour clock. -/
theorem c2_offset_and_padding (ts : LocalTimestamp) (h : ValidReading ts) :
    printedLine ts =
      dateTimeChars ts ++ ' ' :: (ts.tzName.data ++ ' ' :: '(' ::
        (offsetChars ts.offMinutes ++ [')', '\n'])) ∧
    parseOffset (offsetChars ts.offMinutes) = some ts.offMinutes ∧
    (fmt4 ts.year).length = 4 ∧ decDigits (fmt4 ts.year) = some ts.year ∧
    (fmt2 ts.month).length = 2 ∧ decDigits (fmt2 ts.month) = some ts.month ∧
    (fmt2 ts.day).length = 2 ∧ decDigits (fmt2 ts.day) = some ts.day ∧
    (fmt2 ts.hour).length = 2 ∧ decDigits (fmt2 ts.hour) = some ts.hour ∧
    (fmt2 ts.minute).length = 2 ∧ decDigits (fmt2 ts.minute) = some ts.minute ∧
    (fmt2 ts.second).length = 2 ∧ decDigits (fmt2 ts.second) = some ts.second ∧
    ts.hour < 24 := by
  obtain ⟨hy1, hy2, hmo1, hmo2, hd1, hd2, hh, hmi, hse, hus, ho1, ho2, hname⟩ := h
  refine ⟨by simp [printedLine, lineChars],
    parseOffset_offsetChars ts.offMinutes ho1 ho2,
    rfl, decDigits_fmt4 ts.year (by omega),
    rfl, decDigits_fmt2 ts.month (by omega),
    rfl, decDigits_fmt2 ts.day (by omega),
    rfl, decDigits_fmt2 ts.hour (by omega),
    rfl, decDigits_fmt2 ts.minute (by omega),
    rfl, decDigits_fmt2 ts.second (by omega),
    by omega⟩

theorem c2_witness :
    parseOffset (offsetChars sampleTs.offMinutes) = some sampleTs.offMinutes :=
  (c2_offset_and_padding sampleTs (by decide)).2.1

/-- C3: parsing the date/time portion of the printed line back with the
inverse format yields a timestamp whose distance from the clock reading
is the dropped sub-second fraction — strictly less than one second, and
in particular within the spec's five-second tolerance. -/
theorem c3_roundtrip_within_tolerance (ts : LocalTimestamp) (h : ValidReading ts) :
    parsedLocalSeconds (printedLine ts) = some (localSeconds ts) ∧
    localSeconds ts * 1000000 ≤ localMicros ts ∧
    localMicros ts - localSeconds ts * 1000000 < 1000000 := by
  have hus : ts.microsecond ≤ 999999 := h.2.2.2.2.2.2.2.2.2.1
  refine ⟨?_, ?_, ?_⟩
  · simp [parsedLocalSeconds, parseStamp_printedLine ts h, localSeconds]
  · simp [localMicros]
  · simp [localMicros]
    omega

theorem c3_witness :
    parsedLocalSeconds (printedLine sampleTs) = some (localSeconds sampleTs) :=
  (c3_roundtrip_within_tolerance sampleTs (by decide)).1

/-- C4: the formatting-then-parsing of instants is a monotone map — for
any two clock readings with the first no later than the second, the
timestamps parsed back from the two printed lines are monotonically
non-decreasing. -/
theorem c4_parse_monotone (t1 t2 : LocalTimestamp)
    (h1 : ValidReading t1) (h2 : ValidReading t2)
    (hle : localMicros t1 ≤ localMicros t2) :
    ∃ p1 p2, parsedLocalSeconds (printedLine t1) = some p1 ∧
      parsedLocalSeconds (printedLine t2) = some p2 ∧ p1 ≤ p2 := by
  have hu1 : t1.microsecond ≤ 999999 := h1.2.2.2.2.2.2.2.2.2.1
  have hu2 : t2.microsecond ≤ 999999 := h2.2.2.2.2.2.2.2.2.2.1
  refine ⟨localSeconds t1, localSeconds t2, ?_, ?_, ?_⟩
  · simp [parsedLocalSeconds, parseStamp_printedLine t1 h1, localSeconds]
  · simp [parsedLocalSeconds, parseStamp_printedLine t2 h2, localSeconds]
  · simp [localMicros] at hle
    omega

theorem c4_witness :
    ∃ p1 p2, parsedLocalSeconds (printedLine sampleTs) = some p1 ∧
      parsedLocalSeconds (printedLine sampleTs2) = some p2 ∧ p1 ≤ p2 :=
  c4_parse_monotone sampleTs sampleTs2 (by decide) (by decide) (by decide)

/-- C9: the printed date/time portion is the clock reading truncated to
whole seconds: the output never depends on the microsecond component,
the truncated instant is the floor of the exact instant to seconds, and
two readings with the same date/time fields print identical date/time
portions regardless of their microseconds. -/
theorem c9_subsecond_truncation (t1 t2 : LocalTimestamp) (h1 : ValidReading t1) :
    printedLine t1 = printedLine { t1 with microsecond := 0 } ∧
    localSeconds t1 = localMicros t1 / 1000000 ∧
    (t1.year = t2.year → t1.month = t2.month → t1.day = t2.day →
      t1.hour = t2.hour → t1.minute = t2.minute → t1.second = t2.second →
      dateTimeChars t1 = dateTimeChars t2) := by
  have hus : t1.microsecond ≤ 999999 := h1.2.2.2.2.2.2.2.2.2.1
  refine ⟨rfl, ?_, ?_⟩
  · simp [localMicros]
    omega
  · intro e1 e2 e3 e4 e5 e6
    simp [dateTimeChars, e1, e2, e3, e4, e5, e6]

theorem c9_witness :
    localSeconds sampleTs = localMicros sampleTs / 1000000 :=
  (c9_subsecond_truncation sampleTs sampleTs2 (by decide)).2.1

/-- C10: when the attached timezone yields an empty display name, the
`%Z` field renders as the empty string, the printed line contains two
consecutive spaces between the seconds field and the opening
parenthesis, and the line still matches the spec's output regular
expression. -/
theorem c10_empty_tz_name (ts : LocalTimestamp) (h : ValidReading ts)
    (he : ts.tzName = "") :
    printedLine ts =
      dateTimeChars ts ++ ' ' :: ' ' :: '(' :: (offsetChars ts.offMinutes ++ [')', '\n']) ∧
    matchesPattern (printedLine ts) = true := by
  constructor
  · simp [printedLine, lineChars, he, show ("" : String).data = [] from rfl]
  · exact matchesPattern_valid ts h

theorem c10_witness :
    printedLine sampleEmptyTz =
      dateTimeChars sampleEmptyTz ++ ' ' :: ' ' :: '(' ::
        (offsetChars sampleEmptyTz.offMinutes ++ [')', '\n']) :=
  (c10_empty_tz_name sampleEmptyTz (by decide) rfl).1

/-- C5: on every invocation whose clock read succeeds, the program's only
side effect is exactly one write to standard output — the formatted
string terminated by a newline — and nothing is written to standard
error. -/
theorem c5_single_stdout_write (inv : Invocation) (ts : LocalTimestamp)
    (h : inv.clockResult = Except.ok ts) :
    (runProgram inv).events = [Effect.wrOut (outputLine ts)] ∧
    (outputLine ts).data = lineChars ts ++ ['\n'] ∧
    stderrOf (runProgram inv).events = "" := by
  refine ⟨?_, ?_, ?_⟩ <;>
    simp [runProgram, mainBody, h, outputLine, printedLine, stderrOf]

theorem c5_witness :
    stderrOf (runProgram sampleInv).events = "" :=
  (c5_single_stdout_write sampleInv sampleTs rfl).2.2

/-- C6: every invocation in which the clock read and formatting succeed
terminates with exit status 0. -/
theorem c6_exit_zero_on_success (inv : Invocation) (ts : LocalTimestamp)
    (h : inv.clockResult = Except.ok ts) :
    (runProgram inv).exitCode = 0 := by
  simp [runProgram, mainBody, h]

theorem c6_witness : (runProgram sampleInv).exitCode = 0 :=
  c6_exit_zero_on_success sampleInv sampleTs rfl

/-- C7: the program reads no command-line arguments, environment
variables, or files: any two invocations whose clock/timezone readings
are equal produce identical outcomes, whatever their argument vectors,
environments, or file systems. -/
theorem c7_noninterference (a1 a2 : List String) (e1 e2 : List (String × String))
    (f1 f2 : List (String × String)) (r : Except Fault LocalTimestamp) :
    runProgram ⟨a1, e1, f1, r⟩ = runProgram ⟨a2, e2, f2, r⟩ :=
  rfl

/-- C8: the script contains no exception handler, so a fault raised by
the platform clock/timezone subsystem propagates out of `main`
unchanged — no retry or recovery — and the process terminates with a
non-zero exit status and a platform diagnostic on stderr. -/
theorem c8_fault_propagates (inv : Invocation) (f : Fault)
    (h : inv.clockResult = Except.error f) :
    mainBody inv.clockResult = Except.error f ∧
    (runProgram inv).exitCode = 1 ∧
    (runProgram inv).events = [Effect.wrErr (faultDiagnostic f)] ∧
    stderrOf (runProgram inv).events = faultDiagnostic f := by
  refine ⟨?_, ?_, ?_, ?_⟩ <;>
    simp [runProgram, mainBody, h, stderrOf]

theorem c8_witness : (runProgram sampleErrInv).exitCode = 1 :=
  (c8_fault_propagates sampleErrInv sampleFault rfl).2.1
